import Mathlib

/-
Verification of the authentication core of the aussie-byte blog application
(routes/auth.js and index.js), shallowly embedded in Lean 4.

The register, login and logout route handlers and the requireLogin guard
are translated directly from the JavaScript source.  The bcrypt password
hasher and the express-session store are external npm libraries whose code
is not part of the repository; those two components are modelled from the
contracts given in the specification (sections 4.1 and 4.3) and are marked
as such in their doc comments.

Asynchronous callbacks in the source become explicit parameters: each
possible callback error (hash error, database error, session-destroy
error) is a boolean input of the handler function, and the nondeterministic
salt of bcrypt.hash and the random session token are inputs as well, so
every behaviour of the source corresponds to some choice of inputs.
-/

namespace AussieByte

/-- Modelled from the spec (section 4.1, Password Hasher): the bcrypt
library is an external dependency, not code of this repository.  A digest
is an opaque value that embeds the salt used to produce it, so that
verification can recompute the hash with the same salt. -/
structure Digest where
  salt : Nat
  body : Nat
deriving Repr, DecidableEq

/-- Modelled from the spec: the one-way kernel of the hasher, a function of
the salt and the plaintext (stands in for the bcrypt key-derivation; the
claims only use its functional behaviour). -/
def hashBody (salt : Nat) (plaintext : String) : Nat :=
  plaintext.data.foldl (fun a c => (a * 31 + c.toNat) % 2 ^ 32) (salt % 2 ^ 32)

/-- Modelled from the spec: bcrypt.hash with an explicit salt parameter.
The source calls bcrypt.hash(password, 10, cb); the fresh random salt of
each call is modelled as the input salt, universally quantified in the
theorems. -/
def bcryptHashWith (salt : Nat) (plaintext : String) : Digest :=
  ⟨salt, hashBody salt plaintext⟩

/-- Modelled from the spec: bcrypt.compare recomputes the hash using the
salt embedded in the digest and compares. -/
def bcryptCompare (plaintext : String) (d : Digest) : Bool :=
  hashBody d.salt plaintext == d.body

/-- A row of the users table created in index.js:
id INTEGER PRIMARY KEY AUTOINCREMENT, username TEXT NOT NULL UNIQUE,
password TEXT NOT NULL (the password column stores the bcrypt digest). -/
structure User where
  id : Nat
  username : String
  password : Digest
deriving Repr, DecidableEq

/-- The users table: its rows plus the next AUTOINCREMENT id.  SQLite
AUTOINCREMENT ids start at 1. -/
structure UsersTable where
  rows : List User
  nextId : Nat
deriving Repr, DecidableEq

/-- The error raised by the INSERT when the UNIQUE constraint on username
is violated. -/
inductive SqlError where
  | uniqueViolation
deriving Repr, DecidableEq

/-- db.get with SELECT * FROM users WHERE username = ? (auth.js line 41):
returns the first row whose username matches exactly (case-sensitive). -/
def dbGetUserByUsername (t : UsersTable) (username : String) : Option User :=
  t.rows.find? (fun r => r.username == username)

/-- db.run with INSERT INTO users (username, password) VALUES (?, ?)
(auth.js line 25): fails with a UNIQUE-constraint error when the username
already exists, otherwise appends a fresh row with the next id. -/
def dbInsertUser (t : UsersTable) (username : String) (digest : Digest) :
    Except SqlError UsersTable :=
  if t.rows.any (fun r => r.username == username) then
    .error .uniqueViolation
  else
    .ok ⟨t.rows ++ [⟨t.nextId, username, digest⟩], t.nextId + 1⟩

/-- The user-facing outcome of a request handler.  noResponse models the
paths where the source only does console.error(err.message) and returns
without sending anything to the client. -/
inductive Response where
  | redirect (path : String)
  | render (view : String) (error : Option String)
  | clearCookieRedirect (cookie : String) (path : String)
  | noResponse
deriving Repr, DecidableEq

/-- JavaScript truthiness of the bcrypt.compare callback result: an
undefined result (error path, modelled as none) is falsy, a boolean is
its own truth value. -/
def jsTruthy : Option Bool → Bool
  | none => false
  | some b => b

/-- The POST /register handler (auth.js lines 19-31).  hashErr is the err
argument of the bcrypt.hash callback, storeErr an INSERT failure other
than the UNIQUE violation; in both cases the source logs and returns
without responding.  On a duplicate username the INSERT errs and the
source likewise logs and returns.  Result: the users table after the
request and the response sent. -/
def registerHandler (t : UsersTable) (username password : String) (salt : Nat)
    (hashErr storeErr : Bool) : UsersTable × Response :=
  if hashErr then (t, .noResponse)
  else
    let hash := bcryptHashWith salt password
    if storeErr then (t, .noResponse)
    else
      match dbInsertUser t username hash with
      | .error _ => (t, .noResponse)
      | .ok t2 => (t2, .redirect "/login")

/-- The POST /login handler (auth.js lines 39-56).  sess is
req.session.userId before the request; dbErr is the err argument of the
db.get callback (logged, no response); compareErr models the bcrypt.compare
error path, in which the callback result argument is undefined and the err
argument is ignored by the handler.  Result: req.session.userId after the
request and the response sent. -/
def loginHandler (t : UsersTable) (sess : Option Nat) (username password : String)
    (dbErr compareErr : Bool) : Option Nat × Response :=
  if dbErr then (sess, .noResponse)
  else
    match dbGetUserByUsername t username with
    | none => (sess, .render "login" (some "Invalid username or password"))
    | some user =>
      if jsTruthy (if compareErr then none else some (bcryptCompare password user.password)) then
        (some user.id, .redirect "/")
      else
        (sess, .render "login" (some "Invalid username or password"))

/-- Modelled from the spec (section 4.3, Session Manager): express-session
is an external dependency, not code of this repository.  Server-side
session state: a mapping from opaque tokens to user ids. -/
structure SessionStore where
  sessions : List (String × Nat)
deriving Repr, DecidableEq

/-- Modelled from the spec: create(user_id) stores a fresh record under the
given token (the random token generation is modelled as the token input)
and returns the store with the record added. -/
def createSession (st : SessionStore) (tok : String) (uid : Nat) : SessionStore :=
  ⟨(tok, uid) :: st.sessions⟩

/-- Modelled from the spec: resolve(token) looks the token up and returns
its user id, or none when the token is absent. -/
def resolveSession (st : SessionStore) (tok : String) : Option Nat :=
  match st.sessions.find? (fun e => e.1 == tok) with
  | some e => some e.2
  | none => none

/-- Modelled from the spec: destroy(token) removes every record stored
under the token; removing an absent token leaves the store unchanged and
is not an error. -/
def destroySession (st : SessionStore) (tok : String) : SessionStore :=
  ⟨st.sessions.filter (fun e => e.1 != tok)⟩

/-- The GET /logout handler (auth.js lines 59-65).  destroyErr is the err
argument of the req.session.destroy callback: on error the source
redirects to the root path without clearing the cookie; on success it
clears the connect.sid cookie and redirects to /login. -/
def logoutHandler (st : SessionStore) (tok : String) (destroyErr : Bool) :
    SessionStore × Response :=
  if destroyErr then (st, .redirect "/")
  else (destroySession st tok, .clearCookieRedirect "connect.sid" "/login")

/-- Outcome of the access guard: allow carries the authenticated user id
(available to the downstream handler as req.session.userId), deny is the
redirect the guard issues. -/
inductive GuardResult where
  | allow (userId : Nat)
  | deny (path : String)
deriving Repr, DecidableEq

/-- req.session.userId as seen by a request carrying an optional session
cookie: the express-session middleware (index.js lines 25-29) resolves the
cookie token against the store. -/
def sessionUserId (st : SessionStore) (cookie : Option String) : Option Nat :=
  match cookie with
  | none => none
  | some tok => resolveSession st tok

/-- The requireLogin guard (index.js lines 86-92): the source tests
req.session && req.session.userId, a JavaScript truthiness check, so a
userId of 0 would be treated as absent; it calls next() when the check
passes and redirects to /login otherwise. -/
def requireLogin (st : SessionStore) (cookie : Option String) : GuardResult :=
  match sessionUserId st cookie with
  | some uid => if uid != 0 then .allow uid else .deny "/login"
  | none => .deny "/login"

/-- A concrete users table used by witnesses: one registered user alice
whose stored digest was produced from the password secret123 with salt 5. -/
def demoTable : UsersTable :=
  ⟨[⟨1, "alice", bcryptHashWith 5 "secret123"⟩], 2⟩

-- ---------------------------------------------------------------------
-- Theorems
-- ---------------------------------------------------------------------

/-- C5: for every pair of non-empty strings (username, password) and every
salt, verifying the password against the digest produced by hashing it
returns true, and distinct salts produce distinct digests for the same
password (fresh random salt per call may change the digest). -/
theorem hash_then_verify_roundtrip (salt : Nat) (username password : String)
    (hu : username ≠ "") (hp : password ≠ "") :
    bcryptCompare password (bcryptHashWith salt password) = true ∧
    (∀ s1 s2 : Nat, s1 ≠ s2 → bcryptHashWith s1 password ≠ bcryptHashWith s2 password) := by
  constructor
  · simp [bcryptCompare, bcryptHashWith]
  · intro s1 s2 hne h
    exact hne (congrArg Digest.salt h)

/-- Witness for C5 at salt 5, username alice, password secret123. -/
theorem hash_then_verify_roundtrip_witness :
    bcryptCompare "secret123" (bcryptHashWith 5 "secret123") = true ∧
    (∀ s1 s2 : Nat, s1 ≠ s2 → bcryptHashWith s1 "secret123" ≠ bcryptHashWith s2 "secret123") :=
  hash_then_verify_roundtrip 5 "alice" "secret123" (by decide) (by decide)

/-- C6: resolving the token returned by create immediately after creation
yields the created user id, for every store, token and user id. -/
theorem resolve_create_roundtrip (st : SessionStore) (tok : String) (uid : Nat) :
    resolveSession (createSession st tok uid) tok = some uid := by
  simp [resolveSession, createSession, List.find?]

/-- Helper: filtering a list twice with the same predicate equals filtering
once. -/
theorem filter_idem {α : Type} (p : α → Bool) (l : List α) :
    (l.filter p).filter p = l.filter p := by
  induction l with
  | nil => rfl
  | cons a l ih =>
    by_cases h : p a = true
    · simp [List.filter, h, ih]
    · simp [List.filter, h, ih]

/-- C7: after destroy(token), resolve of the same token returns none, and
destroy is idempotent: destroying again (any positive number of times)
leaves the store exactly as after the first destroy, with no error. -/
theorem destroy_resolve_none_and_idempotent (st : SessionStore) (tok : String) :
    resolveSession (destroySession st tok) tok = none ∧
    destroySession (destroySession st tok) tok = destroySession st tok ∧
    (∀ n : Nat, Nat.iterate (fun s => destroySession s tok) (n + 1) st = destroySession st tok) := by
  refine ⟨?_, ?_, ?_⟩
  · unfold resolveSession destroySession
    have h : (st.sessions.filter (fun e => e.1 != tok)).find? (fun e => e.1 == tok) = none := by
      rw [List.find?_eq_none]
      intro x hx
      have := List.of_mem_filter hx
      simpa using this
    simp [h]
  · unfold destroySession
    exact congrArg SessionStore.mk (filter_idem _ _)
  · intro n
    induction n with
    | zero => rfl
    | succ m ih =>
      rw [Function.iterate_succ_apply', ih]
      unfold destroySession
      exact congrArg SessionStore.mk (filter_idem _ _)

/-- C1: the login outcome for a nonexistent username equals, byte for
byte, the outcome for an existing username with a failing password
verification: both leave the session untouched and render the login view
with the same generic error string, whatever the cause of the failure
(mismatch or a compare error whose result is undefined). -/
theorem login_failure_indistinguishable
    (t : UsersTable) (sess : Option Nat) (u1 p1 u2 p2 : String)
    (cErr1 cErr2 : Bool) (user : User)
    (h1 : dbGetUserByUsername t u1 = none)
    (h2 : dbGetUserByUsername t u2 = some user)
    (h3 : jsTruthy (if cErr2 then none else some (bcryptCompare p2 user.password)) = false) :
    loginHandler t sess u1 p1 false cErr1 = loginHandler t sess u2 p2 false cErr2 ∧
    loginHandler t sess u1 p1 false cErr1 =
      (sess, .render "login" (some "Invalid username or password")) := by
  unfold loginHandler
  rw [h1, h2]
  simp [h3]

/-- Witness for C1: bob is unregistered, alice is registered but the
password wrong is not hers; the two outcomes coincide. -/
theorem login_failure_indistinguishable_witness :
    loginHandler demoTable none "bob" "pw" false false =
      loginHandler demoTable none "alice" "wrong" false false ∧
    loginHandler demoTable none "bob" "pw" false false =
      (none, .render "login" (some "Invalid username or password")) :=
  login_failure_indistinguishable demoTable none "bob" "pw" "alice" "wrong" false false
    ⟨1, "alice", bcryptHashWith 5 "secret123"⟩ (by decide) (by decide) (by decide)

/-- Counterexample to C2: a register request with empty username and empty
password is not rejected: starting from an empty table, the password is
hashed, a row with the empty username is inserted into the store, and the
handler answers with the success redirect to /login. -/
theorem register_empty_not_rejected :
    registerHandler ⟨[], 1⟩ "" "" 0 false false =
      (⟨[⟨1, "", bcryptHashWith 0 ""⟩], 2⟩, .redirect "/login") := by
  decide

/-- C2 amended: the register handler performs no input validation at all:
for any username and password, empty strings included, the password is
hashed and a user row is inserted (when the username is not already
taken), and the handler redirects to /login. -/
theorem register_no_validation
    (t : UsersTable) (username password : String) (salt : Nat)
    (hfree : t.rows.any (fun r => r.username == username) = false) :
    registerHandler t username password salt false false =
      (⟨t.rows ++ [⟨t.nextId, username, bcryptHashWith salt password⟩], t.nextId + 1⟩,
        .redirect "/login") := by
  unfold registerHandler dbInsertUser
  rw [hfree]
  simp

/-- Witness for C2 amended at the empty username and password. -/
theorem register_no_validation_witness :
    registerHandler ⟨[], 1⟩ "" "" 0 false false =
      (⟨[] ++ [⟨1, "", bcryptHashWith 0 ""⟩], 2⟩, .redirect "/login") :=
  register_no_validation ⟨[], 1⟩ "" "" 0 (by decide)

/-- Counterexample to C3: registering the already-taken username alice
leaves the table unchanged (no overwrite), but the requester receives no
response at all: the handler logs the UNIQUE-violation error and returns
without rendering any username-taken outcome. -/
theorem register_duplicate_no_render :
    registerHandler demoTable "alice" "other" 7 false false = (demoTable, .noResponse) ∧
    (registerHandler demoTable "alice" "other" 7 false false).2 ≠
      .render "register" none := by
  decide

/-- C3 amended: for every table and every username already present in it,
registration fails without overwriting the existing row (the table is
returned unchanged), but the requester receives no response: the handler
only logs the duplicate error. -/
theorem register_duplicate_no_overwrite
    (t : UsersTable) (username password : String) (salt : Nat)
    (htaken : t.rows.any (fun r => r.username == username) = true) :
    registerHandler t username password salt false false = (t, .noResponse) := by
  unfold registerHandler dbInsertUser
  rw [htaken]
  simp

/-- Witness for C3 amended at the taken username alice. -/
theorem register_duplicate_no_overwrite_witness :
    registerHandler demoTable "alice" "other" 7 false false = (demoTable, .noResponse) :=
  register_duplicate_no_overwrite demoTable "alice" "other" 7 (by decide)

/-- Counterexample to C4: when the credential-store lookup fails during
login, the user receives no response at all: the handler logs the error
and returns, so the error is not translated into any of the four
user-facing outcomes. -/
theorem internal_error_no_response :
    (loginHandler demoTable none "alice" "secret123" true false).2 = .noResponse := by
  decide

/-- C4 amended: internal component errors (hasher error or store failure
on register, store failure on login) are caught in the handler callbacks
and never cross the HTTP boundary verbatim, and the state is left
unchanged, but they are only logged: the user receives no response at all
rather than a translated user-facing outcome. -/
theorem internal_errors_swallowed
    (t : UsersTable) (sess : Option Nat) (username password : String) (salt : Nat) :
    registerHandler t username password salt true false = (t, .noResponse) ∧
    registerHandler t username password salt false true = (t, .noResponse) ∧
    loginHandler t sess username password true false = (sess, .noResponse) := by
  refine ⟨?_, ?_, ?_⟩ <;> simp [registerHandler, loginHandler]

/-- Counterexample to C8: when session destruction reports an error, the
logout handler redirects to the root path, not to /login, and clears no
cookie. -/
theorem logout_error_redirects_to_root :
    logoutHandler ⟨[("t", 1)]⟩ "t" true = (⟨[("t", 1)]⟩, .redirect "/") ∧
    (logoutHandler ⟨[("t", 1)]⟩ "t" true).2 ≠ .clearCookieRedirect "connect.sid" "/login" := by
  decide

/-- C8 amended: on successful destruction, including when the session is
already gone (destroying an absent token is not an error), the logout
handler destroys the session, clears the connect.sid cookie and redirects
to /login; when destroy reports an error it leaves the store unchanged
and redirects to the root path without clearing the cookie. -/
theorem logout_behaviour (st : SessionStore) (tok : String) :
    logoutHandler st tok false =
      (destroySession st tok, .clearCookieRedirect "connect.sid" "/login") ∧
    logoutHandler st tok true = (st, .redirect "/") := by
  constructor <;> simp [logoutHandler]

/-- Helper: under the store invariant that every stored user id is
positive, any resolved user id is positive. -/
theorem resolveSession_pos (st : SessionStore) (tok : String) (uid : Nat)
    (hpos : ∀ e ∈ st.sessions, 0 < e.2) (h : resolveSession st tok = some uid) :
    0 < uid := by
  unfold resolveSession at h
  cases hfind : st.sessions.find? (fun e => e.1 == tok) with
  | none => rw [hfind] at h; cases h
  | some e =>
    rw [hfind] at h
    simp at h
    rw [← h]
    exact hpos e (List.mem_of_find?_eq_some hfind)

/-- C9: assuming the session-store invariant that every stored user id is
positive (user ids come from the AUTOINCREMENT users table, whose ids
start at 1), the guard allows with user id uid exactly when the resolved
session user id is uid, and denies with a redirect to /login whenever the
cookie resolves to no user id. -/
theorem requireLogin_allow_iff_resolve
    (st : SessionStore) (cookie : Option String)
    (hpos : ∀ e ∈ st.sessions, 0 < e.2) :
    (∀ uid : Nat, requireLogin st cookie = .allow uid ↔ sessionUserId st cookie = some uid) ∧
    (sessionUserId st cookie = none → requireLogin st cookie = .deny "/login") := by
  constructor
  · intro uid
    unfold requireLogin
    cases hres : sessionUserId st cookie with
    | none => simp
    | some v =>
      have hv : 0 < v := by
        cases cookie with
        | none => simp [sessionUserId] at hres
        | some tok => exact resolveSession_pos st tok v hpos hres
      have hv0 : (v != 0) = true := by
        simp [bne_iff_ne]
        omega
      simp [hv0]
  · intro hnone
    unfold requireLogin
    rw [hnone]

/-- Witness for C9 at a one-session store with user id 1. -/
theorem requireLogin_allow_iff_resolve_witness :
    (∀ uid : Nat, requireLogin ⟨[("t", 1)]⟩ (some "t") = .allow uid ↔
      sessionUserId ⟨[("t", 1)]⟩ (some "t") = some uid) ∧
    (sessionUserId ⟨[("t", 1)]⟩ (some "t") = none →
      requireLogin ⟨[("t", 1)]⟩ (some "t") = .deny "/login") :=
  requireLogin_allow_iff_resolve ⟨[("t", 1)]⟩ (some "t") (by decide)

/-- C10: when the login request reaches password verification (the lookup
succeeded and found a user), the session is set, to the found user's id,
exactly when the verification result is the boolean true with no
verification error; on every other outcome, among them the error path in
which the callback result is undefined and the error value ignored, the
session is left unchanged and the generic invalid-credentials page is
rendered. -/
theorem login_session_only_on_true
    (t : UsersTable) (sess : Option Nat) (username password : String)
    (cErr : Bool) (user : User)
    (hfound : dbGetUserByUsername t username = some user) :
    ((cErr = false ∧ bcryptCompare password user.password = true) →
      loginHandler t sess username password false cErr = (some user.id, .redirect "/")) ∧
    ((cErr = true ∨ bcryptCompare password user.password = false) →
      loginHandler t sess username password false cErr =
        (sess, .render "login" (some "Invalid username or password"))) := by
  unfold loginHandler
  rw [hfound]
  constructor
  · rintro ⟨hc, hb⟩
    subst hc
    simp [jsTruthy, hb]
  · intro h
    cases h with
    | inl hc => subst hc; simp [jsTruthy]
    | inr hb =>
      cases cErr with
      | false => simp [jsTruthy, hb]
      | true => simp [jsTruthy]

/-- Witness for C10 at the demo table: alice with the correct password and
no error. -/
theorem login_session_only_on_true_witness :
    ((false = false ∧ bcryptCompare "secret123" (bcryptHashWith 5 "secret123") = true) →
      loginHandler demoTable none "alice" "secret123" false false =
        (some 1, .redirect "/")) ∧
    ((false = true ∨ bcryptCompare "secret123" (bcryptHashWith 5 "secret123") = false) →
      loginHandler demoTable none "alice" "secret123" false false =
        (none, .render "login" (some "Invalid username or password"))) :=
  login_session_only_on_true demoTable none "alice" "secret123" false
    ⟨1, "alice", bcryptHashWith 5 "secret123"⟩ (by decide)

end AussieByte
